import Mathlib

/-!
Verification of pauling-ai/youtube-mcp-server against its specification.

The development shallowly embeds two modules:

* `src/youtube_mcp/utils/quota.py` — client-side quota tracking
  (`QuotaTracker`, `QUOTA_COSTS`, `QuotaExhaustedError`).  Python's
  unbounded `int` is modelled as `Int`; `date.today()` is modelled as an
  explicit day-number argument `today : Int`, computed from an instant and
  a UTC offset where the timezone matters.  A raising method becomes a
  function returning `Except e Unit × QuotaTracker`: the second component
  is the tracker state after the call (Python mutates the object in place,
  and `_reset_if_new_day` runs before any raise).

* `src/youtube_mcp/auth.py` — OAuth credential management (`YouTubeAuth`).
  The outside world (token file, client-secret file, network refresh,
  consent flow) is an explicit environment record, and each operation also
  returns the list of externally visible effects it performed, so that
  read-only and no-network claims are statable.
-/

deriving instance DecidableEq for Except

namespace YoutubeMcp

namespace Quota

/-- Quota costs per operation type, the `QUOTA_COSTS` dict of
`utils/quota.py` (lines 21-31); `none` for labels absent from the dict. -/
def QUOTA_COSTS (operation : String) : Option Int :=
  if operation = "list" then some 1
  else if operation = "insert" then some 50
  else if operation = "update" then some 50
  else if operation = "delete" then some 50
  else if operation = "search" then some 100
  else if operation = "video_insert" then some 1600
  else if operation = "caption_insert" then some 400
  else if operation = "caption_update" then some 450
  else if operation = "thumbnail_set" then some 50
  else none

/-- The payload of `QuotaExhaustedError` (quota.py lines 10-17): the
`used` and `limit` attributes stored on the exception. -/
structure QuotaExhaustedError where
  used : Int
  limit : Int
deriving Repr, DecidableEq

/-- State of a `QuotaTracker` (quota.py lines 34-38): `daily_limit`,
`_used`, and `_date` (the calendar date, as a day number). -/
structure QuotaTracker where
  daily_limit : Int
  used : Int
  date : Int
deriving Repr, DecidableEq

/-- `QuotaTracker.__init__` (quota.py lines 35-38): `date.today()` at
construction time is passed in as `today`. -/
def QuotaTracker.init (today : Int) (daily_limit : Int) : QuotaTracker :=
  ⟨daily_limit, 0, today⟩

/-- `QuotaTracker._reset_if_new_day` (quota.py lines 40-44). -/
def reset_if_new_day (today : Int) (t : QuotaTracker) : QuotaTracker :=
  if today ≠ t.date then { t with used := 0, date := today } else t

/-- `QuotaTracker.consume` (quota.py lines 46-52).  Returns the
exception-or-unit outcome together with the tracker state after the call. -/
def consume (today : Int) (operation : String) (count : Int) (t : QuotaTracker) :
    Except QuotaExhaustedError Unit × QuotaTracker :=
  let t1 := reset_if_new_day today t
  let cost := (QUOTA_COSTS operation).getD 1 * count
  if t1.daily_limit < t1.used + cost then
    (Except.error ⟨t1.used, t1.daily_limit⟩, t1)
  else
    (Except.ok (), { t1 with used := t1.used + cost })

/-- The `used` property (quota.py lines 54-57). -/
def used_prop (today : Int) (t : QuotaTracker) : Int × QuotaTracker :=
  let t1 := reset_if_new_day today t
  (t1.used, t1)

/-- The `remaining` property (quota.py lines 59-62). -/
def remaining_prop (today : Int) (t : QuotaTracker) : Int × QuotaTracker :=
  let t1 := reset_if_new_day today t
  (t1.daily_limit - t1.used, t1)

/-- The dict returned by `QuotaTracker.status` (quota.py lines 64-71). -/
structure QuotaStatus where
  used : Int
  remaining : Int
  limit : Int
  date : Int
deriving Repr, DecidableEq

/-- `QuotaTracker.status` (quota.py lines 64-71); the `remaining` entry is
computed through the `remaining` property, which runs the rollover check
again on the already-reset state. -/
def status (today : Int) (t : QuotaTracker) : QuotaStatus × QuotaTracker :=
  let t1 := reset_if_new_day today t
  let r := remaining_prop today t1
  (⟨t1.used, r.1, t1.daily_limit, t1.date⟩, r.2)

/-- `date.today()` as used by quota.py: the calendar day number of the
instant `now` (seconds since epoch) in the host machine's local timezone,
given as a UTC offset in seconds. -/
def date_today (now hostOffset : Int) : Int := (now + hostOffset).fdiv 86400

/-- Modelled from the spec: the fixed reference timezone is Pacific Time
(UTC-8 outside daylight saving), so the spec's reset boundary is the
calendar day number of the instant in Pacific Time. -/
def pacific_date (now : Int) : Int := (now + (-28800)).fdiv 86400

/-- Every operation label in the `QUOTA_COSTS` table has cost at least 1,
and unknown labels default to 1, so the effective per-call cost is always
positive. -/
lemma one_le_cost (operation : String) : 1 ≤ (QUOTA_COSTS operation).getD 1 := by
  unfold QUOTA_COSTS
  repeat' split
  all_goals decide

/-- C1: for every operation label with per-call cost C (the table value, 1
if unknown) and every non-negative integer N, if after the day-rollover
check `used + N*C <= limit` holds, then `consume(label, N)` returns
normally and increases `used` by exactly `N*C`; on a fresh default tracker
the sequence `consume("list")`, `consume("search")`, `consume("list", 3)`
ends with `used = 104`. -/
theorem consume_success_adds (today : Int) (operation : String) (N : Int)
    (t : QuotaTracker) (_hN : 0 ≤ N)
    (h : (reset_if_new_day today t).used + (QUOTA_COSTS operation).getD 1 * N ≤
      (reset_if_new_day today t).daily_limit) :
    consume today operation N t =
      (Except.ok (), { reset_if_new_day today t with
        used := (reset_if_new_day today t).used + (QUOTA_COSTS operation).getD 1 * N }) ∧
    (consume 0 "list" 3 (consume 0 "search" 1 (consume 0 "list" 1
      (QuotaTracker.init 0 10000)).2).2).2.used = 104 := by
  refine ⟨?_, by decide⟩
  simp only [consume]
  rw [if_neg (not_lt.mpr h)]

/-- Witness for C1: `consume("search", 2)` on a fresh default tracker
succeeds and sets `used` to 200. -/
theorem consume_success_adds_witness :
    consume 0 "search" 2 ⟨10000, 0, 0⟩ =
      (Except.ok (), { reset_if_new_day 0 ⟨10000, 0, 0⟩ with
        used := (reset_if_new_day 0 ⟨10000, 0, 0⟩).used + (QUOTA_COSTS "search").getD 1 * 2 }) ∧
    (consume 0 "list" 3 (consume 0 "search" 1 (consume 0 "list" 1
      (QuotaTracker.init 0 10000)).2).2).2.used = 104 :=
  consume_success_adds 0 "search" 2 ⟨10000, 0, 0⟩ (by decide) (by decide)

/-- C2: whenever (after the day-rollover check) `used + cost > limit`,
`consume` raises `QuotaExhaustedError` carrying the tracker's `used` and
`limit` at the moment of rejection and leaves `used` unchanged; with
`daily_limit = 150`, one `consume("search")` succeeds with `used = 100`
and a second raises `QuotaExhaustedError(used=100, limit=150)` leaving
`used` at 100. -/
theorem consume_exhausted (today : Int) (operation : String) (count : Int)
    (t : QuotaTracker)
    (h : (reset_if_new_day today t).daily_limit <
      (reset_if_new_day today t).used + (QUOTA_COSTS operation).getD 1 * count) :
    consume today operation count t =
      (Except.error ⟨(reset_if_new_day today t).used, (reset_if_new_day today t).daily_limit⟩,
        reset_if_new_day today t) ∧
    (consume 0 "search" 1 (QuotaTracker.init 0 150)).2.used = 100 ∧
    consume 0 "search" 1 (consume 0 "search" 1 (QuotaTracker.init 0 150)).2 =
      (Except.error ⟨100, 150⟩, (consume 0 "search" 1 (QuotaTracker.init 0 150)).2) := by
  refine ⟨?_, by decide, by decide⟩
  simp only [consume]
  rw [if_pos h]

/-- Witness for C2: on a tracker with limit 150 and 100 units used,
`consume("search")` fails with `QuotaExhaustedError(100, 150)` and leaves
the state as it was after the rollover check. -/
theorem consume_exhausted_witness :
    consume 0 "search" 1 ⟨150, 100, 0⟩ =
      (Except.error ⟨(reset_if_new_day 0 ⟨150, 100, 0⟩).used,
        (reset_if_new_day 0 ⟨150, 100, 0⟩).daily_limit⟩, reset_if_new_day 0 ⟨150, 100, 0⟩) ∧
    (consume 0 "search" 1 (QuotaTracker.init 0 150)).2.used = 100 ∧
    consume 0 "search" 1 (consume 0 "search" 1 (QuotaTracker.init 0 150)).2 =
      (Except.error ⟨100, 150⟩, (consume 0 "search" 1 (QuotaTracker.init 0 150)).2) :=
  consume_exhausted 0 "search" 1 ⟨150, 100, 0⟩ (by decide)

/-- C3 counterexample: `consume` accepts a negative count (Python does not
validate `count`), so on a fresh default tracker `consume("list", -1)`
returns normally and drives `used` below its previous value and below
zero within the same day — refuting the claim for arbitrary integer
counts. -/
theorem used_decreases_cex :
    (consume 0 "list" (-1) (QuotaTracker.init 0 10000)).2.used <
      (QuotaTracker.init 0 10000).used ∧
    (consume 0 "list" (-1) (QuotaTracker.init 0 10000)).2.used < 0 ∧
    (consume 0 "list" (-1) (QuotaTracker.init 0 10000)).1 = Except.ok () := by decide

/-- C3 (amended): within a single quota day (`today = t.date`) and for
every operation label and every non-negative count, `consume` never
decreases `used` and preserves its non-negativity, and the accessors
`used`, `remaining` and `status` leave `used` unchanged. -/
theorem used_monotone (today : Int) (operation : String) (count : Int)
    (t : QuotaTracker) (hd : today = t.date) (hc : 0 ≤ count) :
    t.used ≤ (consume today operation count t).2.used ∧
    (0 ≤ t.used → 0 ≤ (consume today operation count t).2.used) ∧
    (used_prop today t).2.used = t.used ∧
    (remaining_prop today t).2.used = t.used ∧
    (status today t).2.used = t.used := by
  have hreset : reset_if_new_day today t = t := by
    simp [reset_if_new_day, hd]
  have hcost : 0 ≤ (QUOTA_COSTS operation).getD 1 * count :=
    mul_nonneg (le_trans zero_le_one (one_le_cost operation)) hc
  refine ⟨?_, ?_, ?_, ?_, ?_⟩
  · simp only [consume, hreset]
    split
    · exact le_refl t.used
    · exact le_add_of_nonneg_right hcost
  · intro hu
    simp only [consume, hreset]
    split
    · exact hu
    · exact add_nonneg hu hcost
  · simp [used_prop, hreset]
  · simp [remaining_prop, hreset]
  · simp [status, remaining_prop, hreset]

/-- Witness for C3 (amended): a same-day `consume("list", 2)` on a tracker
with 5 units used does not decrease `used`, and the accessors leave it
unchanged. -/
theorem used_monotone_witness :
    (⟨10000, 5, 0⟩ : QuotaTracker).used ≤ (consume 0 "list" 2 ⟨10000, 5, 0⟩).2.used ∧
    (0 ≤ (⟨10000, 5, 0⟩ : QuotaTracker).used → 0 ≤ (consume 0 "list" 2 ⟨10000, 5, 0⟩).2.used) ∧
    (used_prop 0 ⟨10000, 5, 0⟩).2.used = (⟨10000, 5, 0⟩ : QuotaTracker).used ∧
    (remaining_prop 0 ⟨10000, 5, 0⟩).2.used = (⟨10000, 5, 0⟩ : QuotaTracker).used ∧
    (status 0 ⟨10000, 5, 0⟩).2.used = (⟨10000, 5, 0⟩ : QuotaTracker).used :=
  used_monotone 0 "list" 2 ⟨10000, 5, 0⟩ (by decide) (by decide)

/-- C4: every accessor (`used`, `remaining`, `status`) and every `consume`
call first runs the day-rollover check; on a date change `used` reads 0,
`remaining` reads the full limit, and the next `consume` behaves exactly
as on a tracker reset to zero usage at the new date. -/
theorem new_day_resets (today : Int) (operation : String) (count : Int)
    (t : QuotaTracker) (h : today ≠ t.date) :
    (used_prop today t).1 = 0 ∧
    (remaining_prop today t).1 = t.daily_limit ∧
    (status today t).1.used = 0 ∧
    (status today t).1.remaining = t.daily_limit ∧
    consume today operation count t = consume today operation count ⟨t.daily_limit, 0, today⟩ := by
  have hreset : reset_if_new_day today t = ⟨t.daily_limit, 0, today⟩ := by
    rw [reset_if_new_day, if_pos h]
  have hreset2 : reset_if_new_day today (⟨t.daily_limit, 0, today⟩ : QuotaTracker) =
      ⟨t.daily_limit, 0, today⟩ := by
    rw [reset_if_new_day]
    simp
  refine ⟨?_, ?_, ?_, ?_, ?_⟩
  · simp [used_prop, hreset]
  · simp [remaining_prop, hreset]
  · simp [status, remaining_prop, hreset, hreset2]
  · simp [status, remaining_prop, hreset, hreset2]
  · simp only [consume, hreset, hreset2]

/-- Witness for C4: a tracker with 100 units used on day 0, read on day 1,
reports zero usage and full remaining quota, and `consume` on day 1
behaves as on the reset tracker. -/
theorem new_day_resets_witness :
    (used_prop 1 ⟨10000, 100, 0⟩).1 = 0 ∧
    (remaining_prop 1 ⟨10000, 100, 0⟩).1 = (⟨10000, 100, 0⟩ : QuotaTracker).daily_limit ∧
    (status 1 ⟨10000, 100, 0⟩).1.used = 0 ∧
    (status 1 ⟨10000, 100, 0⟩).1.remaining = (⟨10000, 100, 0⟩ : QuotaTracker).daily_limit ∧
    consume 1 "search" 1 ⟨10000, 100, 0⟩ =
      consume 1 "search" 1 ⟨(⟨10000, 100, 0⟩ : QuotaTracker).daily_limit, 0, 1⟩ :=
  new_day_resets 1 "search" 1 ⟨10000, 100, 0⟩ (by decide)

/-- C5: the code computes the rollover date with `date.today()`, the
host-local calendar date, not the Pacific-Time calendar date its own
error message documents.  At the instant 1970-01-01 00:00 UTC on a host
in UTC, the host-local day number differs from the Pacific one; a tracker
last reset on the current Pacific day with 5 units used is wrongly reset
to 0 by the code, while the Pacific-day comparison would keep 5. -/
theorem rollover_uses_host_local_date :
    date_today 0 0 ≠ pacific_date 0 ∧
    (used_prop (date_today 0 0) ⟨10000, 5, pacific_date 0⟩).1 = 0 ∧
    (used_prop (pacific_date 0) ⟨10000, 5, pacific_date 0⟩).1 = 5 := by decide

/-- C6: for every operation label absent from the `QUOTA_COSTS` table and
every tracker state with at least one unit remaining after the rollover
check, `consume(label)` uses unit cost 1 and increases `used` by exactly
1. -/
theorem unknown_op_cost_one (today : Int) (operation : String) (t : QuotaTracker)
    (hop : QUOTA_COSTS operation = none)
    (h : (reset_if_new_day today t).used + 1 ≤ (reset_if_new_day today t).daily_limit) :
    consume today operation 1 t =
      (Except.ok (), { reset_if_new_day today t with
        used := (reset_if_new_day today t).used + 1 }) := by
  simp only [consume, hop, Option.getD_none, one_mul]
  rw [if_neg (not_lt.mpr h)]

/-- Witness for C6: `consume("totally_unknown_op")` on a fresh default
tracker increases `used` by exactly 1. -/
theorem unknown_op_cost_one_witness :
    consume 0 "totally_unknown_op" 1 ⟨10000, 0, 0⟩ =
      (Except.ok (), { reset_if_new_day 0 ⟨10000, 0, 0⟩ with
        used := (reset_if_new_day 0 ⟨10000, 0, 0⟩).used + 1 }) :=
  unknown_op_cost_one 0 "totally_unknown_op" ⟨10000, 0, 0⟩ (by decide) (by decide)

/-- C10 counterexample: the claim quantifies over every tracker state, but
`QuotaTracker(daily_limit=-1)` is constructible through the public
constructor and there `consume("list", 0)` raises
`QuotaExhaustedError(0, -1)` even though the computed cost is 0. -/
theorem zero_count_raises_cex :
    (consume 0 "list" 0 (QuotaTracker.init 0 (-1))).1 = Except.error ⟨0, -1⟩ := by decide

/-- C10 (amended): for every tracker state whose post-rollover `used` does
not exceed the limit — in particular when `used = limit`, the budget fully
exhausted — and every operation label, `consume(label, 0)` computes cost
0, never raises, and leaves `used` unchanged. -/
theorem zero_count_noop (today : Int) (operation : String) (t : QuotaTracker)
    (h : (reset_if_new_day today t).used ≤ (reset_if_new_day today t).daily_limit) :
    consume today operation 0 t = (Except.ok (), reset_if_new_day today t) := by
  simp only [consume, mul_zero, add_zero]
  rw [if_neg (not_lt.mpr h)]

/-- Witness for C10 (amended): with `used = limit = 100`,
`consume("search", 0)` succeeds and changes nothing. -/
theorem zero_count_noop_witness :
    consume 0 "search" 0 ⟨100, 100, 0⟩ = (Except.ok (), reset_if_new_day 0 ⟨100, 100, 0⟩) :=
  zero_count_noop 0 "search" ⟨100, 100, 0⟩ (by decide)

end Quota

namespace Auth

/-- The fields of a `google.oauth2.credentials.Credentials` object that
auth.py inspects: `valid`, `expired`, truthiness of `refresh_token`, and
`scopes` (which may be `None`). -/
structure Credentials where
  valid : Bool
  expired : Bool
  refresh_token : Bool
  scopes : Option (List String)
deriving Repr, DecidableEq

/-- State of a `YouTubeAuth` object (auth.py lines 36-57): the resolved
paths, the optional API key, and the cached `_credentials`. -/
structure YouTubeAuth where
  config_dir : String
  token_path : String
  client_secret_path : String
  api_key : Option String
  credentials : Option Credentials
deriving Repr, DecidableEq

/-- The outside world auth.py interacts with: the token file at
`token_path` (`none` when the file does not exist, `some none` when it
exists but cannot be parsed), existence of the client-secret file, and
the outcomes of the two external calls — `creds.refresh(Request())`
(`none` when it raises) and `flow.run_local_server` (`none` when it
raises). -/
structure AuthEnv where
  token_file : Option (Option Credentials)
  client_secret_exists : Bool
  refresh_result : Option Credentials
  flow_result : Option Credentials
deriving Repr, DecidableEq

/-- Externally visible effects an auth operation can perform: reading or
writing the token file, the network refresh call, and the interactive
consent flow. -/
inductive AuthEffect where
  | tokenRead
  | tokenWrite
  | networkRefresh
  | consentFlow
deriving Repr, DecidableEq

/-- The two `AuthError` raises in `authenticate` (auth.py lines 98-103 and
114). -/
inductive AuthError where
  | clientSecretMissing (path : String)
  | oauthFlowFailed
deriving Repr, DecidableEq

/-- The message attached to each `AuthError` raise in `authenticate`; the
missing-client-secret message (auth.py lines 98-103) interpolates the
resolved path and tells the user where to get the file and how to point
to it. -/
def AuthError.message : AuthError → String
  | .clientSecretMissing path =>
      "client_secret.json not found at " ++ path ++
        ". Download it from your Google Cloud Console " ++
        "(APIs & Services > Credentials > OAuth 2.0 Client IDs) " ++
        "and place it at this path, or set YOUTUBE_MCP_CLIENT_SECRET env var."
  | .oauthFlowFailed => "OAuth flow failed"

/-- `YouTubeAuth._load_token` (auth.py lines 59-67): `None` when the file
does not exist or parsing raises, the parsed credentials otherwise. -/
def load_token (env : AuthEnv) : Option Credentials :=
  match env.token_file with
  | none => none
  | some parsed => parsed

/-- `YouTubeAuth._save_token` (auth.py lines 69-72): writes the
credentials to the token file. -/
def save_token (c : Credentials) (env : AuthEnv) : AuthEnv :=
  { env with token_file := some (some c) }

/-- The OAuth-flow tail of `authenticate` (auth.py lines 96-114): raise
`AuthError` when the client-secret file is missing, otherwise run the
consent flow, saving the token on success and wrapping a flow exception in
`AuthError`.  `eff` is the effect trace accumulated so far. -/
def run_oauth_flow (s : YouTubeAuth) (env : AuthEnv) (eff : List AuthEffect) :
    Except AuthError Credentials × YouTubeAuth × AuthEnv × List AuthEffect :=
  if env.client_secret_exists = false then
    (Except.error (AuthError.clientSecretMissing s.client_secret_path), s, env, eff)
  else
    match env.flow_result with
    | some c =>
        (Except.ok c, { s with credentials := some c }, save_token c env,
          eff ++ [AuthEffect.consentFlow, AuthEffect.tokenWrite])
    | none =>
        (Except.error AuthError.oauthFlowFailed, s, env, eff ++ [AuthEffect.consentFlow])

/-- `YouTubeAuth.authenticate` (auth.py lines 74-114): return a valid
stored token; otherwise, if it is expired with a refresh token, try the
refresh call, saving and returning on success and silently falling
through (`except: pass`) on failure; otherwise run the OAuth flow. -/
def authenticate (s : YouTubeAuth) (env : AuthEnv) :
    Except AuthError Credentials × YouTubeAuth × AuthEnv × List AuthEffect :=
  let creds := load_token env
  let eff := [AuthEffect.tokenRead]
  match creds with
  | some c =>
      if c.valid then
        (Except.ok c, { s with credentials := some c }, env, eff)
      else if c.expired && c.refresh_token then
        match env.refresh_result with
        | some c2 =>
            (Except.ok c2, { s with credentials := some c2 }, save_token c2 env,
              eff ++ [AuthEffect.networkRefresh, AuthEffect.tokenWrite])
        | none =>
            run_oauth_flow s env (eff ++ [AuthEffect.networkRefresh])
      else
        run_oauth_flow s env eff
  | none => run_oauth_flow s env eff

/-- The dict returned by `YouTubeAuth.status` (auth.py lines 143-165): one
of the three shapes, with the fields each branch reports. -/
inductive AuthStatus where
  | authenticated (scopes : List String) (token_path : String)
  | expiredToken (has_refresh_token : Bool) (token_path : String)
  | notAuthenticated (token_exists : Bool) (client_secret_exists : Bool)
      (client_secret_path : String)
deriving Repr, DecidableEq

/-- `YouTubeAuth.status` (auth.py lines 143-165): load the stored token
and report one of the three status shapes; the only effect is the token
read performed by `_load_token`. -/
def status_auth (s : YouTubeAuth) (env : AuthEnv) :
    AuthStatus × YouTubeAuth × AuthEnv × List AuthEffect :=
  let creds := load_token env
  match creds with
  | some c =>
      if c.valid then
        (AuthStatus.authenticated (c.scopes.getD []) s.token_path, s, env, [AuthEffect.tokenRead])
      else if c.expired then
        (AuthStatus.expiredToken c.refresh_token s.token_path, s, env, [AuthEffect.tokenRead])
      else
        (AuthStatus.notAuthenticated env.token_file.isSome env.client_secret_exists
          s.client_secret_path, s, env, [AuthEffect.tokenRead])
  | none =>
      (AuthStatus.notAuthenticated env.token_file.isSome env.client_secret_exists
        s.client_secret_path, s, env, [AuthEffect.tokenRead])

/-- When the client-secret file is missing, the OAuth-flow tail of
`authenticate` raises the missing-client-secret `AuthError` without
touching state, environment or the effect trace. -/
lemma run_oauth_flow_missing (s : YouTubeAuth) (env : AuthEnv) (eff : List AuthEffect)
    (hsecret : env.client_secret_exists = false) :
    run_oauth_flow s env eff =
      (Except.error (AuthError.clientSecretMissing s.client_secret_path), s, env, eff) := by
  simp [run_oauth_flow, hsecret]

/-- C7: when no stored credential is valid, no refresh is possible (no
token, not refreshable, or the refresh call fails), and the resolved
client-secret file does not exist, `authenticate` raises `AuthError`
carrying the resolved client-secret path — whose message names that path
and how to point to it — without running the consent flow. -/
theorem authenticate_missing_secret (s : YouTubeAuth) (env : AuthEnv)
    (hvalid : ∀ c, load_token env = some c → c.valid = false)
    (hrefresh : ∀ c, load_token env = some c → (c.expired && c.refresh_token) = true →
      env.refresh_result = none)
    (hsecret : env.client_secret_exists = false) :
    (authenticate s env).1 = Except.error (AuthError.clientSecretMissing s.client_secret_path) ∧
    AuthEffect.consentFlow ∉ (authenticate s env).2.2.2 ∧
    (AuthError.clientSecretMissing s.client_secret_path).message =
      "client_secret.json not found at " ++ s.client_secret_path ++
        ". Download it from your Google Cloud Console " ++
        "(APIs & Services > Credentials > OAuth 2.0 Client IDs) " ++
        "and place it at this path, or set YOUTUBE_MCP_CLIENT_SECRET env var." := by
  rcases hl : load_token env with _ | c
  · simp only [authenticate, hl, run_oauth_flow_missing s env _ hsecret]
    exact ⟨by trivial, by decide, by trivial⟩
  · have hv := hvalid c hl
    rcases hb : c.expired && c.refresh_token with _ | _
    · simp only [authenticate, hl, hv, hb, Bool.false_eq_true, if_false,
        run_oauth_flow_missing s env _ hsecret]
      exact ⟨by trivial, by decide, by trivial⟩
    · have hr := hrefresh c hl hb
      simp only [authenticate, hl, hv, hb, hr, Bool.false_eq_true, if_false, if_true,
        run_oauth_flow_missing s env _ hsecret]
      exact ⟨by trivial, by decide, by trivial⟩

/-- Witness for C7: an expired token with a refresh token whose refresh
call fails, and a missing client-secret file, make `authenticate` raise
the missing-client-secret error without running the consent flow. -/
theorem authenticate_missing_secret_witness :
    (authenticate ⟨"cfg", "cfg/token.json", "cfg/client_secret.json", none, none⟩
      ⟨some (some ⟨false, true, true, none⟩), false, none, none⟩).1 =
      Except.error (AuthError.clientSecretMissing "cfg/client_secret.json") ∧
    AuthEffect.consentFlow ∉ (authenticate ⟨"cfg", "cfg/token.json", "cfg/client_secret.json", none, none⟩
      ⟨some (some ⟨false, true, true, none⟩), false, none, none⟩).2.2.2 ∧
    (AuthError.clientSecretMissing
        (YouTubeAuth.client_secret_path ⟨"cfg", "cfg/token.json", "cfg/client_secret.json", none, none⟩)).message =
      "client_secret.json not found at " ++
        (YouTubeAuth.client_secret_path ⟨"cfg", "cfg/token.json", "cfg/client_secret.json", none, none⟩) ++
        ". Download it from your Google Cloud Console " ++
        "(APIs & Services > Credentials > OAuth 2.0 Client IDs) " ++
        "and place it at this path, or set YOUTUBE_MCP_CLIENT_SECRET env var." :=
  authenticate_missing_secret ⟨"cfg", "cfg/token.json", "cfg/client_secret.json", none, none⟩
    ⟨some (some ⟨false, true, true, none⟩), false, none, none⟩
    (by intro c hc; cases hc; rfl)
    (by intro c hc hb; rfl)
    rfl

/-- C8: for a loaded credential that is expired with a refresh token, a
failing refresh call is swallowed: `authenticate` proceeds exactly as the
consent path would, and the only errors it can raise are the
missing-client-secret `AuthError` and the consent-flow-failure
`AuthError`. -/
theorem authenticate_refresh_fallback (s : YouTubeAuth) (env : AuthEnv)
    (c : Credentials) (hl : load_token env = some c) (hv : c.valid = false)
    (he : c.expired = true) (hr : c.refresh_token = true)
    (hrefresh : env.refresh_result = none) :
    authenticate s env =
      run_oauth_flow s env [AuthEffect.tokenRead, AuthEffect.networkRefresh] ∧
    (env.client_secret_exists = false →
      (authenticate s env).1 =
        Except.error (AuthError.clientSecretMissing s.client_secret_path)) ∧
    (∀ c2, env.client_secret_exists = true → env.flow_result = some c2 →
      (authenticate s env).1 = Except.ok c2) ∧
    (env.client_secret_exists = true → env.flow_result = none →
      (authenticate s env).1 = Except.error AuthError.oauthFlowFailed) := by
  have h1 : authenticate s env =
      run_oauth_flow s env [AuthEffect.tokenRead, AuthEffect.networkRefresh] := by
    simp [authenticate, hl, hv, he, hr, hrefresh]
  refine ⟨h1, ?_, ?_, ?_⟩
  · intro hs
    rw [h1, run_oauth_flow_missing s env _ hs]
  · intro c2 hs hf
    rw [h1]
    simp [run_oauth_flow, hs, hf]
  · intro hs hf
    rw [h1]
    simp [run_oauth_flow, hs, hf]

/-- Witness for C8: an expired refreshable token whose refresh call fails
sends `authenticate` to the consent path, which here succeeds and returns
the flow's credentials. -/
theorem authenticate_refresh_fallback_witness :
    (authenticate ⟨"cfg", "cfg/token.json", "cfg/client_secret.json", none, none⟩
        ⟨some (some ⟨false, true, true, none⟩), true, none, some ⟨true, false, true, none⟩⟩ =
      run_oauth_flow ⟨"cfg", "cfg/token.json", "cfg/client_secret.json", none, none⟩
        ⟨some (some ⟨false, true, true, none⟩), true, none, some ⟨true, false, true, none⟩⟩
        [AuthEffect.tokenRead, AuthEffect.networkRefresh]) ∧
    ((⟨some (some ⟨false, true, true, none⟩), true, none, some ⟨true, false, true, none⟩⟩ : AuthEnv).client_secret_exists = false →
      (authenticate ⟨"cfg", "cfg/token.json", "cfg/client_secret.json", none, none⟩
        ⟨some (some ⟨false, true, true, none⟩), true, none, some ⟨true, false, true, none⟩⟩).1 =
        Except.error (AuthError.clientSecretMissing
          (YouTubeAuth.client_secret_path ⟨"cfg", "cfg/token.json", "cfg/client_secret.json", none, none⟩))) ∧
    (∀ c2, (⟨some (some ⟨false, true, true, none⟩), true, none, some ⟨true, false, true, none⟩⟩ : AuthEnv).client_secret_exists = true →
      (⟨some (some ⟨false, true, true, none⟩), true, none, some ⟨true, false, true, none⟩⟩ : AuthEnv).flow_result = some c2 →
      (authenticate ⟨"cfg", "cfg/token.json", "cfg/client_secret.json", none, none⟩
        ⟨some (some ⟨false, true, true, none⟩), true, none, some ⟨true, false, true, none⟩⟩).1 = Except.ok c2) ∧
    ((⟨some (some ⟨false, true, true, none⟩), true, none, some ⟨true, false, true, none⟩⟩ : AuthEnv).client_secret_exists = true →
      (⟨some (some ⟨false, true, true, none⟩), true, none, some ⟨true, false, true, none⟩⟩ : AuthEnv).flow_result = none →
      (authenticate ⟨"cfg", "cfg/token.json", "cfg/client_secret.json", none, none⟩
        ⟨some (some ⟨false, true, true, none⟩), true, none, some ⟨true, false, true, none⟩⟩).1 =
        Except.error AuthError.oauthFlowFailed) :=
  authenticate_refresh_fallback ⟨"cfg", "cfg/token.json", "cfg/client_secret.json", none, none⟩
    ⟨some (some ⟨false, true, true, none⟩), true, none, some ⟨true, false, true, none⟩⟩
    ⟨false, true, true, none⟩ rfl rfl rfl rfl rfl

/-- C9: `status` is read-only — it leaves every field of the manager and
the whole environment (in particular the persisted token file) unchanged,
and its only effect is the token-file read: no network call, no consent
flow, no write. -/
theorem status_read_only (s : YouTubeAuth) (env : AuthEnv) :
    (status_auth s env).2.1 = s ∧
    (status_auth s env).2.2.1 = env ∧
    (status_auth s env).2.2.2 = [AuthEffect.tokenRead] := by
  simp only [status_auth]
  rcases load_token env with _ | c
  · exact ⟨rfl, rfl, rfl⟩
  · dsimp only
    split
    · exact ⟨rfl, rfl, rfl⟩
    · split
      · exact ⟨rfl, rfl, rfl⟩
      · exact ⟨rfl, rfl, rfl⟩

end Auth

end YoutubeMcp
